import Mathlib

/-!
Shallow embedding of the gesture-to-control pipeline of planet-vision-s.

Sources embedded here:
* `src/frontend/src/services/gestureController.ts` (zoom, rotation deltas, swipe)
* `src/frontend/src/services/handAnalyzer.ts` (finger extension)
* `src/unnamed/part_009` = `src/data/planets.ts` (catalog order, next/previous)
* `src/frontend/src/hooks/usePlanetControl.ts` (per-frame accumulator and
  the double-pinch planet-switch logic)

JavaScript numbers are embedded as exact rationals (`ℚ`); all arithmetic in
the embedded code paths is +, -, *, /, min, max, abs, which ℚ supports
exactly.  The only irrational operation in the relevant code is
`Math.sqrt` inside Euclidean distances; where a distance is only *compared*
to a constant threshold we compare the squared distance to the squared
threshold (equivalent, since `Real.sqrt` is monotone on nonnegatives), and
where it appears in `calculateFingerExtension` the distance function is a
parameter; there the JavaScript division's `NaN` and `±Infinity` outcomes
at a zero divisor are modelled explicitly, with `none` as the image of
`NaN`.
-/

/-- A 3-D point, the image of `Point3D` / a MediaPipe landmark `{x, y, z}`. -/
structure Point3D where
  x : ℚ
  y : ℚ
  z : ℚ
deriving DecidableEq, Repr

/-- `landmarkToPoint` from `utils/mathUtils` (the file itself is not under
`src/`; all call sites pass a landmark record `{x,y,z}` straight through, and
the spec's data model (§3) makes a keypoint exactly a 3-D point).
Modelled from the spec: a landmark is already a 3-D point, so the conversion
is the identity. -/
def landmarkToPoint (p : Point3D) : Point3D := p

/-- A 21-point hand frame (`NormalizedLandmarkList`): MediaPipe guarantees
exactly 21 landmarks, so we embed it as a total function from `Fin 21`. -/
abbrev Landmarks := Fin 21 → Point3D

/-- `HandOrientation` from `types.ts`: heading 0–360°, pitch −90–90°,
roll −180–180°. -/
structure HandOrientation where
  heading : ℚ
  pitch : ℚ
  roll : ℚ
deriving DecidableEq, Repr

/-- `FingerExtension` from `types.ts`: five per-finger openness scalars. -/
structure FingerExtension where
  thumb : ℚ
  index : ℚ
  middle : ℚ
  ring : ℚ
  pinky : ℚ
deriving DecidableEq, Repr

/-- `PinchData` from `types.ts`. -/
structure PinchData where
  strength : ℚ
  distance : ℚ
  history : List ℚ
deriving DecidableEq, Repr

/-- The `direction` field of `SwipeDirection`: `'left' | 'right' | 'none'`. -/
inductive SwipeDir where
  | left
  | right
  | none
deriving DecidableEq, Repr

/-- `SwipeDirection` from `types.ts`. -/
structure SwipeDirection where
  direction : SwipeDir
  velocity : ℚ
deriving DecidableEq, Repr

/-- `PlanetType` from `types.ts` (the active, 5-member variant). -/
inductive PlanetType where
  | SATURN
  | HYPERION
  | EPIMETHEUS
  | TELESTO
  | PHOEBE
deriving DecidableEq, Repr

/-- `PlanetControlState` from `types.ts`. -/
structure PlanetControlState where
  zoom : ℚ
  rotationX : ℚ
  rotationY : ℚ
  rotationZ : ℚ
  currentPlanet : PlanetType
deriving DecidableEq, Repr

/-! ### Catalog order (`src/data/planets.ts`, given as `src/unnamed/part_009`) -/

/-- `PLANET_ORDER`: Saturn first, then the moons. -/
def PLANET_ORDER : List PlanetType :=
  [.SATURN, .HYPERION, .EPIMETHEUS, .TELESTO, .PHOEBE]

/-- `getNextPlanet`: `PLANET_ORDER[(indexOf current + 1) % length]`.
`List.indexOf` plays the role of `Array.prototype.indexOf`; every
`PlanetType` occurs in `PLANET_ORDER`, so the index is always found, and the
in-range lookup is embedded with `getD` (out of range never happens). -/
def getNextPlanet (current : PlanetType) : PlanetType :=
  let currentIndex := PLANET_ORDER.indexOf current
  let nextIndex := (currentIndex + 1) % PLANET_ORDER.length
  PLANET_ORDER.getD nextIndex .SATURN

/-- `getPreviousPlanet`: `PLANET_ORDER[(indexOf current - 1 + length) % length]`.
JavaScript computes `currentIndex - 1 + PLANET_ORDER.length` as an integer
before taking `%`; since `currentIndex ≥ 0`, adding the length first keeps the
operand nonnegative, so `Nat` arithmetic agrees with it (`currentIndex + length - 1`
with `length ≥ 1`). -/
def getPreviousPlanet (current : PlanetType) : PlanetType :=
  let currentIndex := PLANET_ORDER.indexOf current
  let prevIndex := (currentIndex + PLANET_ORDER.length - 1) % PLANET_ORDER.length
  PLANET_ORDER.getD prevIndex .SATURN

/-! ### `gestureController.ts` -/

/-- Control constants, `gestureController.ts` lines 11–21. -/
def ZOOM_MIN : ℚ := 0.5

def ZOOM_MAX : ℚ := 2.0

def ZOOM_SMOOTHING : ℚ := 0.04

def ROTATION_SENSITIVITY : ℚ := 3.0

def ROTATION_SMOOTHING : ℚ := 0.1

def HAND_MOVEMENT_SENSITIVITY : ℚ := 4.0

def HAND_MOVEMENT_SMOOTHING : ℚ := 0.12

def HAND_ROTATION_SENSITIVITY : ℚ := 0.5

def HAND_ROTATION_SMOOTHING : ℚ := 0.08

def SWIPE_THRESHOLD : ℚ := 0.05

def DEAD_ZONE : ℚ := 0.5

/-- `GestureControlInput` from `gestureController.ts`. -/
structure GestureControlInput where
  landmarks : Landmarks
  orientation : HandOrientation
  pinch : PinchData
  fingerExtension : FingerExtension
  previousIndexTip : Option Point3D
  previousOrientation : Option HandOrientation
  previousWrist : Option Point3D

/-- `GestureControlOutput` from `gestureController.ts`. -/
structure GestureControlOutput where
  zoom : ℚ
  rotationX : ℚ
  rotationY : ℚ
  rotationZ : ℚ
  swipe : SwipeDirection
deriving DecidableEq, Repr

/-- Mean extension of the four non-thumb fingers, the expression
`(index + middle + ring + pinky) / 4` that recurs in `gestureController.ts`. -/
def avgExtension (fingerExtension : FingerExtension) : ℚ :=
  (fingerExtension.index + fingerExtension.middle +
    fingerExtension.ring + fingerExtension.pinky) / 4

/-- `calculateZoom`, `gestureController.ts` lines 47–65: map average
non-thumb extension to a target zoom, clamp, then smooth exponentially. -/
def calculateZoom (fingerExtension : FingerExtension) (currentZoom : ℚ) : ℚ :=
  let avg := avgExtension fingerExtension
  let targetZoom := ZOOM_MIN + (ZOOM_MAX - ZOOM_MIN) * (1 - avg)
  let clampedZoom := max ZOOM_MIN (min ZOOM_MAX targetZoom)
  currentZoom + (clampedZoom - currentZoom) * ZOOM_SMOOTHING

/-- Result record of the two-axis rotation helpers. -/
structure RotXY where
  rotationX : ℚ
  rotationY : ℚ
deriving DecidableEq, Repr

/-- `calculateFingerRotation`, `gestureController.ts` lines 70–93. -/
def calculateFingerRotation (currentIndexTip : Point3D)
    (previousIndexTip : Option Point3D) : RotXY :=
  match previousIndexTip with
  | .none => { rotationX := 0, rotationY := 0 }
  | .some prev =>
    let deltaX := currentIndexTip.x - prev.x
    let deltaY := currentIndexTip.y - prev.y
    let rotationY := -deltaX * ROTATION_SENSITIVITY * 180
    let rotationX := deltaY * ROTATION_SENSITIVITY * 180
    let maxRotation : ℚ := 5.0
    { rotationX := max (-maxRotation) (min maxRotation rotationX) * ROTATION_SMOOTHING
      rotationY := max (-maxRotation) (min maxRotation rotationY) * ROTATION_SMOOTHING }

/-- `calculateHandMovementRotation`, `gestureController.ts` lines 101–140. -/
def calculateHandMovementRotation (currentWrist : Point3D)
    (previousWrist : Option Point3D)
    (fingerExtension : Option FingerExtension) : RotXY :=
  match previousWrist with
  | .none => { rotationX := 0, rotationY := 0 }
  | .some prev =>
    let deltaX := currentWrist.x - prev.x
    let deltaY := currentWrist.y - prev.y
    let sensitivityMultiplier :=
      match fingerExtension with
      | .none => (1.0 : ℚ)
      | .some fe =>
        let avg := avgExtension fe
        if avg < 0.3 then 1.0 + (0.3 - avg) * 5.0 else 1.0
    let rotationY := -deltaX * HAND_MOVEMENT_SENSITIVITY * sensitivityMultiplier * 180
    let rotationX := deltaY * HAND_MOVEMENT_SENSITIVITY * sensitivityMultiplier * 180
    let maxRotation := 8.0 * sensitivityMultiplier
    { rotationX := max (-maxRotation) (min maxRotation rotationX) * HAND_MOVEMENT_SMOOTHING
      rotationY := max (-maxRotation) (min maxRotation rotationY) * HAND_MOVEMENT_SMOOTHING }

/-- Result record of `calculateHandRotation`. -/
structure RotXYZ where
  rotationX : ℚ
  rotationY : ℚ
  rotationZ : ℚ
deriving DecidableEq, Repr

/-- Heading difference across the 0/360 boundary, `gestureController.ts`
lines 157–160: raw difference, then `−360` when above `180` and `+360`
when below `−180`. -/
def headingDelta (currentHeading previousHeading : ℚ) : ℚ :=
  let d := currentHeading - previousHeading
  if d > 180 then d - 360
  else if d < -180 then d + 360
  else d

/-- The `applyDeadZone` closure from `calculateHandRotation`,
`gestureController.ts` lines 166–169. -/
def applyDeadZone (value : ℚ) : ℚ :=
  if |value| < DEAD_ZONE then 0 else value

/-- `calculateHandRotation`, `gestureController.ts` lines 147–197. -/
def calculateHandRotation (currentOrientation : HandOrientation)
    (previousOrientation : Option HandOrientation)
    (fingerExtension : Option FingerExtension) : RotXYZ :=
  match previousOrientation with
  | .none => { rotationX := 0, rotationY := 0, rotationZ := 0 }
  | .some prev =>
    let deltaHeading := headingDelta currentOrientation.heading prev.heading
    let deltaRoll := currentOrientation.roll - prev.roll
    let deltaPitch := currentOrientation.pitch - prev.pitch
    let sensitivityMultiplier :=
      match fingerExtension with
      | .none => (1.0 : ℚ)
      | .some fe =>
        let avg := avgExtension fe
        if avg < 0.3 then 1.0 + (0.3 - avg) * 6.67 else 1.0
    { rotationX := applyDeadZone (deltaPitch * HAND_ROTATION_SENSITIVITY * sensitivityMultiplier) *
        HAND_ROTATION_SMOOTHING
      rotationY := applyDeadZone (deltaHeading * HAND_ROTATION_SENSITIVITY * sensitivityMultiplier) *
        HAND_ROTATION_SMOOTHING
      rotationZ := applyDeadZone (deltaRoll * HAND_ROTATION_SENSITIVITY * sensitivityMultiplier * 0.5) *
        HAND_ROTATION_SMOOTHING }

/-- `detectSwipe`, `gestureController.ts` lines 203–237.  The source's
guard is `if (!previousWrist || !previousTimestamp)`: `previousWrist` is an
object, truthy whenever present, but `previousTimestamp` is a number and
JavaScript treats a stored timestamp of exactly `0` as falsy, so it is
rejected exactly like a missing sample. -/
def detectSwipe (currentWrist : Point3D) (previousWrist : Option Point3D)
    (timestamp : ℚ) (previousTimestamp : Option ℚ) : SwipeDirection :=
  match previousWrist, previousTimestamp with
  | .some prev, .some prevTs =>
    if prevTs = 0 then { direction := .none, velocity := 0 } else
    let deltaTime := (timestamp - prevTs) / 1000
    if deltaTime ≤ 0 ∨ deltaTime > 0.5 then
      { direction := .none, velocity := 0 }
    else
      let deltaX := currentWrist.x - prev.x
      let absDeltaX := |deltaX|
      let velocity := absDeltaX / deltaTime
      let MIN_DISTANCE : ℚ := 0.02
      if velocity < SWIPE_THRESHOLD ∨ absDeltaX < MIN_DISTANCE then
        { direction := .none, velocity := 0 }
      else
        { direction := if deltaX > 0 then .right else .left, velocity := velocity }
  | _, _ => { direction := .none, velocity := 0 }

/-- `processGestureControl`, `gestureController.ts` lines 242–277.
Landmark index 8 is the index fingertip and 0 the wrist. -/
def processGestureControl (input : GestureControlInput)
    (currentState : PlanetControlState) (timestamp : ℚ)
    (previousTimestamp : Option ℚ) : GestureControlOutput :=
  let indexTip := landmarkToPoint (input.landmarks 8)
  let wrist := landmarkToPoint (input.landmarks 0)
  let zoom := calculateZoom input.fingerExtension currentState.zoom
  let fingerRotation := calculateFingerRotation indexTip input.previousIndexTip
  let handMovementRotation :=
    calculateHandMovementRotation wrist input.previousWrist (some input.fingerExtension)
  let handOrientationRotation :=
    calculateHandRotation input.orientation input.previousOrientation (some input.fingerExtension)
  let swipe := detectSwipe wrist input.previousWrist timestamp previousTimestamp
  { zoom := zoom
    rotationX := fingerRotation.rotationX + handMovementRotation.rotationX +
      handOrientationRotation.rotationX
    rotationY := fingerRotation.rotationY + handMovementRotation.rotationY +
      handOrientationRotation.rotationY
    rotationZ := handOrientationRotation.rotationZ
    swipe := swipe }

/-! ### `handAnalyzer.ts`: finger extension -/

/-- The five results of `calculateFingerExtension`.  In the source these
are plain JavaScript numbers, and a number may be `NaN`; `none` is the
image of `NaN`, `some q` of the finite value `q`.  (The pipeline structure
`FingerExtension` models the non-NaN values the rest of the code
consumes.) -/
structure AnalyzedFingerExtension where
  thumb : Option ℚ
  index : Option ℚ
  middle : Option ℚ
  ring : Option ℚ
  pinky : Option ℚ
deriving DecidableEq, Repr

/-- The inner `getFingerExtension` closure of `calculateFingerExtension`,
`handAnalyzer.ts` lines 47–65, applied to the two distances it computes:
`tipToWrist = distance3D(tipPoint, wrist)` and
`mcpToWrist = distance3D(mcpPoint, wrist)`.  JavaScript number semantics of
`Math.min(1, Math.max(0, (tipToWrist − mcpToWrist·0.4) / (mcpToWrist·1.0)))`
scaled by 1.2 and clamped again: when the divisor is 0, a zero numerator
gives `0/0 = NaN`, which propagates through `Math.min`/`Math.max` and the
multiplication and is returned (`none`); a positive numerator gives
`+Infinity`, which the clamps collapse to the extension 1 and a final value
of `min(1, 1·1.2) = 1`; a negative numerator gives `−Infinity`, collapsed
to 0.  With a nonzero divisor every operation is exact rational
arithmetic. -/
def getFingerExtension (tipToWrist mcpToWrist : ℚ) : Option ℚ :=
  if mcpToWrist * 1.0 = 0 then
    if tipToWrist - mcpToWrist * 0.4 = 0 then
      none
    else if tipToWrist - mcpToWrist * 0.4 > 0 then
      some 1
    else
      some 0
  else
    some (min 1 (min 1 (max 0 ((tipToWrist - mcpToWrist * 0.4) / (mcpToWrist * 1.0))) * 1.2))

/-- `calculateFingerExtension`, `handAnalyzer.ts` lines 39–77.  The source
calls `distance3D` from `utils/mathUtils`, which is not under `src/`;
because `Math.sqrt` has no exact rational image, the Euclidean distance is
taken as a parameter `dist3D` (the spec, §4.1, fixes it to the Euclidean
distance; the theorems below hold for *every* value of the parameter, so in
particular for the Euclidean distance, and the counterexample instantiates
it on a frame where every Euclidean distance is exactly 0).  Landmark
indices: wrist 0; MCP/tip pairs thumb (2, 4), index (5, 8), middle (9, 12),
ring (13, 16), pinky (17, 20). -/
def calculateFingerExtension (dist3D : Point3D → Point3D → ℚ)
    (landmarks : Landmarks) : AnalyzedFingerExtension :=
  let wrist := landmarkToPoint (landmarks 0)
  let ext := fun (mcp tip : Fin 21) =>
    let mcpPoint := landmarkToPoint (landmarks mcp)
    let tipPoint := landmarkToPoint (landmarks tip)
    getFingerExtension (dist3D tipPoint wrist) (dist3D mcpPoint wrist)
  { thumb := ext 2 4
    index := ext 5 8
    middle := ext 9 12
    ring := ext 13 16
    pinky := ext 17 20 }

/-! ### `usePlanetControl.ts`: the per-frame accumulator -/

/-- Constants of `usePlanetControl.ts`, lines 53–58. -/
def DOUBLE_PINCH_TIMEOUT : ℚ := 600

def SWIPE_COOLDOWN : ℚ := 150

def PINCH_COOLDOWN : ℚ := 300

def PINCH_SWITCH_COOLDOWN : ℚ := 500

def VERTICAL_MOVEMENT_COOLDOWN : ℚ := 200

def PINCH_THRESHOLD : ℚ := 0.7

/-- `PINCH_DISTANCE_THRESHOLD`, `usePlanetControl.ts` line 150. -/
def PINCH_DISTANCE_THRESHOLD : ℚ := 0.05

/-- `OTHER_FINGERS_EXTENDED_THRESHOLD`, `usePlanetControl.ts` line 155. -/
def OTHER_FINGERS_EXTENDED_THRESHOLD : ℚ := 0.4

/-- The `'index'` tag of `firstPinchFingerRef : 'index' | null`. -/
inductive PinchFinger where
  | index
deriving DecidableEq, Repr

/-- The fields of `HandData` that `usePlanetControl` reads
(`handData.orientation`, `handData.pinch`, `handData.fingerExtension`);
its remaining fields (landmarks, gesture, confidence) are not consumed by
the hook, whose landmarks arrive through the separate `landmarks` prop. -/
structure HandData where
  orientation : HandOrientation
  pinch : PinchData
  fingerExtension : FingerExtension

/-- Squared thumb-tip-to-index-tip distance.  `usePlanetControl.ts`
lines 143–147 compute `Math.sqrt` of exactly this sum of squares; we keep
the square and compare it against the squared threshold below. -/
def thumbIndexDistanceSq (lm : Landmarks) : ℚ :=
  let thumbTip := landmarkToPoint (lm 4)
  let indexTip := landmarkToPoint (lm 8)
  (thumbTip.x - indexTip.x) ^ 2 + (thumbTip.y - indexTip.y) ^ 2 +
    (thumbTip.z - indexTip.z) ^ 2

/-- `isIndexPinched`, `usePlanetControl.ts` line 151:
`thumbIndexDistance < PINCH_DISTANCE_THRESHOLD`.  Both sides are
nonnegative, so squaring both sides is an equivalent comparison and avoids
the irrational square root. -/
abbrev IsIndexPinched (lm : Landmarks) : Prop :=
  thumbIndexDistanceSq lm < PINCH_DISTANCE_THRESHOLD ^ 2

/-- `areOtherFingersExtended`, `usePlanetControl.ts` lines 156–159. -/
abbrev AreOtherFingersExtended (fe : FingerExtension) : Prop :=
  fe.middle > OTHER_FINGERS_EXTENDED_THRESHOLD ∧
    fe.ring > OTHER_FINGERS_EXTENDED_THRESHOLD ∧
    fe.pinky > OTHER_FINGERS_EXTENDED_THRESHOLD

/-- `isFist`, `usePlanetControl.ts` lines 162–166: all four non-thumb
extensions below `0.3`. -/
abbrev IsFist (fe : FingerExtension) : Prop :=
  fe.index < 0.3 ∧ fe.middle < 0.3 ∧ fe.ring < 0.3 ∧ fe.pinky < 0.3

/-- `currentPinchFinger`, `usePlanetControl.ts` lines 170–178: `'index'`
exactly when the index finger is pinched, the hand is not a fist, and the
other three fingers are extended. -/
def currentPinchFingerOf (lm : Landmarks) (fe : FingerExtension) : Option PinchFinger :=
  if IsIndexPinched lm ∧ ¬ IsFist fe ∧ AreOtherFingersExtended fe then
    some PinchFinger.index
  else
    none

/-- Result of the planet-switch gesture block, `usePlanetControl.ts`
lines 180–285: the new values of `firstPinchTimeRef`, `firstPinchFingerRef`,
`previousPinchFingerRef`, the (possibly advanced) planet and the
`planetSwitched` flag. -/
structure PinchResult where
  firstPinchTime : ℚ
  firstPinchFinger : Option PinchFinger
  previousPinchFinger : Option PinchFinger
  currentPlanet : PlanetType
  planetSwitched : Bool
deriving DecidableEq, Repr

/-- The planet-switch gesture block of the frame handler,
`usePlanetControl.ts` lines 138–285.  A fist resets the pending
double-pinch state and suppresses switching (lines 181–198); otherwise a
pinch-start transition either records a first pinch, or — when a first
pinch by the same finger is pending and at most `DOUBLE_PINCH_TIMEOUT` old —
advances the planet (lines 234–272); a release after the timeout clears the
pending state (lines 273–281).  The `planetSwitched` guard in the source's
condition at line 234 is still `false` at that point (no earlier recognizer
is active), so it is omitted from the condition here. -/
def pinchResultOf (fe : FingerExtension) (lm : Landmarks) (now : ℚ)
    (firstPinchTime : ℚ) (firstPinchFinger : Option PinchFinger)
    (previousPinchFinger0 : Option PinchFinger)
    (currentPlanet : PlanetType) : PinchResult :=
  let currentPinchFinger := currentPinchFingerOf lm fe
  if IsFist fe then
    { firstPinchTime := if firstPinchTime ≠ 0 then 0 else firstPinchTime
      firstPinchFinger := if firstPinchTime ≠ 0 then none else firstPinchFinger
      previousPinchFinger := none
      currentPlanet := currentPlanet
      planetSwitched := false }
  else if (currentPinchFinger ≠ none ∧ ¬ previousPinchFinger0 ≠ none) ∧
      currentPinchFinger = some PinchFinger.index then
    -- pinchJustStarted && currentPinchFinger === 'index'  (line 234)
    if firstPinchTime = 0 ∨ now - firstPinchTime > DOUBLE_PINCH_TIMEOUT then
      -- first pinch: remember time and finger  (lines 238–245)
      { firstPinchTime := now
        firstPinchFinger := some PinchFinger.index
        previousPinchFinger := currentPinchFinger
        currentPlanet := currentPlanet
        planetSwitched := false }
    else if firstPinchFinger = some PinchFinger.index ∧
        now - firstPinchTime ≤ DOUBLE_PINCH_TIMEOUT then
      -- double pinch detected: next planet  (lines 248–263)
      { firstPinchTime := 0
        firstPinchFinger := none
        previousPinchFinger := currentPinchFinger
        currentPlanet := getNextPlanet currentPlanet
        planetSwitched := true }
    else
      -- different finger or timeout: start over  (lines 264–271)
      { firstPinchTime := now
        firstPinchFinger := some PinchFinger.index
        previousPinchFinger := currentPinchFinger
        currentPlanet := currentPlanet
        planetSwitched := false }
  else if ¬ currentPinchFinger ≠ none ∧ previousPinchFinger0 ≠ none then
    -- finger released  (lines 273–281)
    if now - firstPinchTime > DOUBLE_PINCH_TIMEOUT then
      { firstPinchTime := 0
        firstPinchFinger := none
        previousPinchFinger := currentPinchFinger
        currentPlanet := currentPlanet
        planetSwitched := false }
    else
      { firstPinchTime := firstPinchTime
        firstPinchFinger := firstPinchFinger
        previousPinchFinger := currentPinchFinger
        currentPlanet := currentPlanet
        planetSwitched := false }
  else
    { firstPinchTime := firstPinchTime
      firstPinchFinger := firstPinchFinger
      previousPinchFinger := currentPinchFinger
      currentPlanet := currentPlanet
      planetSwitched := false }

/-- The mutable refs of `usePlanetControl`, lines 37–52.  The refs of the
commented-out recognizers (`lastPinchTimeRef`, `lastVerticalMovementTimeRef`,
`previousPinchStrengthRef`, `lastPinchSwitchTimeRef`) are kept for
faithfulness; the active code never writes them after initialization. -/
structure RefsState where
  previousIndexTip : Option Point3D
  previousOrientation : Option HandOrientation
  previousWrist : Option Point3D
  previousTimestamp : Option ℚ
  lastSwipeTime : ℚ
  lastSwipeDirection : SwipeDir
  lastPinchTime : ℚ
  lastVerticalMovementTime : ℚ
  previousPinchStrength : ℚ
  lastPinchSwitchTime : ℚ
  lastPlanet : PlanetType
  firstPinchTime : ℚ
  firstPinchFinger : Option PinchFinger
  previousPinchFinger : Option PinchFinger
deriving DecidableEq, Repr

/-- The complete per-session state of the hook: the React component state
(`controlState`) plus all refs. -/
structure HookState where
  refs : RefsState
  control : PlanetControlState
deriving DecidableEq, Repr

/-- `INITIAL_STATE`, `usePlanetControl.ts` lines 20–26. -/
def INITIAL_STATE : PlanetControlState :=
  { zoom := 1.0, rotationX := 0, rotationY := 0, rotationZ := 0,
    currentPlanet := .SATURN }

/-- The refs as initialized at mount, `usePlanetControl.ts` lines 37–52. -/
def initialRefs : RefsState :=
  { previousIndexTip := none
    previousOrientation := none
    previousWrist := none
    previousTimestamp := none
    lastSwipeTime := 0
    lastSwipeDirection := .none
    lastPinchTime := 0
    lastVerticalMovementTime := 0
    previousPinchStrength := 0
    lastPinchSwitchTime := 0
    lastPlanet := INITIAL_STATE.currentPlanet
    firstPinchTime := 0
    firstPinchFinger := none
    previousPinchFinger := none }

/-- The session-start state. -/
def initialHookState : HookState :=
  { refs := initialRefs, control := INITIAL_STATE }

/-- One frame of the hook's effect with a detected hand,
`usePlanetControl.ts` lines 70–463: run `processGestureControl`, accumulate
rotation, reconcile `currentPlanet` against `lastPlanetRef` (lines 103–112),
run the double-pinch planet-switch block, reset the stored swipe direction
when this frame has no swipe (lines 420–423), update `lastPlanetRef`
(lines 431–442) and store this frame's samples as the previous samples
(lines 445–452).  `Date.now()` is read twice in the source (lines 70 and
130) within the same synchronous handler; both reads are the frame's wall
clock `now`. -/
def stepActive (hd : HandData) (lm : Landmarks) (now : ℚ) (s : HookState) : HookState :=
  let input : GestureControlInput :=
    { landmarks := lm
      orientation := hd.orientation
      pinch := hd.pinch
      fingerExtension := hd.fingerExtension
      previousIndexTip := s.refs.previousIndexTip
      previousOrientation := s.refs.previousOrientation
      previousWrist := s.refs.previousWrist }
  let output := processGestureControl input s.control now s.refs.previousTimestamp
  let indexTip := landmarkToPoint (lm 8)
  let wrist := landmarkToPoint (lm 0)
  let currentPlanet0 :=
    if s.control.currentPlanet ≠ s.refs.lastPlanet then s.refs.lastPlanet
    else s.control.currentPlanet
  let pr := pinchResultOf hd.fingerExtension lm now s.refs.firstPinchTime
    s.refs.firstPinchFinger s.refs.previousPinchFinger currentPlanet0
  let hasSwipe := output.swipe.direction ≠ SwipeDir.none
  { refs :=
      { previousIndexTip := some indexTip
        previousOrientation := some hd.orientation
        previousWrist := some wrist
        previousTimestamp := some now
        lastSwipeTime := s.refs.lastSwipeTime
        lastSwipeDirection := if hasSwipe then s.refs.lastSwipeDirection else SwipeDir.none
        lastPinchTime := s.refs.lastPinchTime
        lastVerticalMovementTime := s.refs.lastVerticalMovementTime
        previousPinchStrength := s.refs.previousPinchStrength
        lastPinchSwitchTime := s.refs.lastPinchSwitchTime
        lastPlanet := pr.currentPlanet
        firstPinchTime := pr.firstPinchTime
        firstPinchFinger := pr.firstPinchFinger
        previousPinchFinger := pr.previousPinchFinger }
    control :=
      { zoom := output.zoom
        rotationX := s.control.rotationX + output.rotationX
        rotationY := s.control.rotationY + output.rotationY
        rotationZ := s.control.rotationZ + output.rotationZ
        currentPlanet := pr.currentPlanet } }

/-- One invocation of the hook's effect, `usePlanetControl.ts` lines 60–464.
With no hand data or an empty landmark list (line 61), only the four
previous-sample refs are cleared and the control state is untouched;
otherwise the frame is processed by `stepActive` on the first hand. -/
def usePlanetControlStep (handData : Option HandData) (landmarks : List Landmarks)
    (now : ℚ) (s : HookState) : HookState :=
  match handData, landmarks with
  | some hd, lm :: _ => stepActive hd lm now s
  | _, _ =>
    { s with refs :=
        { s.refs with
            previousIndexTip := none
            previousOrientation := none
            previousWrist := none
            previousTimestamp := none } }

/-- `resetRotation`, `usePlanetControl.ts` lines 467–474. -/
def resetRotation (s : HookState) : HookState :=
  { s with control := { s.control with rotationX := 0, rotationY := 0, rotationZ := 0 } }

/-- `setPlanet`, `usePlanetControl.ts` lines 477–482. -/
def setPlanet (planet : PlanetType) (s : HookState) : HookState :=
  { s with control := { s.control with currentPlanet := planet } }

/-- The states the hook can reach during a session: the initial state,
closed under per-frame effect invocations and the two exported setters. -/
inductive Reachable : HookState → Prop where
  | init : Reachable initialHookState
  | step (handData : Option HandData) (landmarks : List Landmarks) (now : ℚ)
      {s : HookState} : Reachable s → Reachable (usePlanetControlStep handData landmarks now s)
  | reset {s : HookState} : Reachable s → Reachable (resetRotation s)
  | set (planet : PlanetType) {s : HookState} : Reachable s → Reachable (setPlanet planet s)

/-- Concrete fully open hand used by witnesses. -/
def wOpenHand : HandData :=
  { orientation := { heading := 0, pitch := 0, roll := 0 }
    pinch := { strength := 0, distance := 0, history := [] }
    fingerExtension := { thumb := 1, index := 1, middle := 1, ring := 1, pinky := 1 } }

/-- Concrete all-zero landmark frame used by witnesses. -/
def wZeroFrame : Landmarks := fun _ => { x := 0, y := 0, z := 0 }

/-- Concrete fist hand used by witnesses: all four non-thumb extensions
are 0.1 < 0.3. -/
def wFistHand : HandData :=
  { orientation := { heading := 0, pitch := 0, roll := 0 }
    pinch := { strength := 1, distance := 0, history := [] }
    fingerExtension := { thumb := 0.5, index := 0.1, middle := 0.1, ring := 0.1, pinky := 0.1 } }

/-- Concrete pinching frame for witnesses: thumb tip (4) and index tip (8)
coincide, every other landmark sits at (0.3, 0.5, 0). -/
def wPinchFrame : Landmarks := fun i =>
  if i.val = 4 ∨ i.val = 8 then { x := 0.5, y := 0.5, z := 0 }
  else { x := 0.3, y := 0.5, z := 0 }

/-- Concrete non-pinching frame for witnesses: the thumb tip is a full unit
away from everything else. -/
def wApartFrame : Landmarks := fun i =>
  if i.val = 4 then { x := 1, y := 0, z := 0 } else { x := 0, y := 0, z := 0 }

/-- Concrete swiping frame family for witnesses: the whole hand sits at
horizontal position `wx`, with the thumb tip held 0.5 to the right, so the
hand is never pinching while the wrist moves with `wx`. -/
def wSwipeFrame (wx : ℚ) : Landmarks := fun i =>
  if i.val = 4 then { x := wx + 0.5, y := 0.5, z := 0 }
  else { x := wx, y := 0.5, z := 0 }

/-- Concrete pinching hand for witnesses: index curled onto the thumb, the
other three fingers fully extended — the double-pinch pose. -/
def wPinchHand : HandData :=
  { orientation := { heading := 0, pitch := 0, roll := 0 }
    pinch := { strength := 1, distance := 0, history := [] }
    fingerExtension := { thumb := 0.5, index := 0.2, middle := 1, ring := 1, pinky := 1 } }

/-- Baseline input for the zoom noninterference witness: open hand, no
previous samples. -/
def wBaseInput : GestureControlInput :=
  { landmarks := wZeroFrame
    orientation := { heading := 0, pitch := 0, roll := 0 }
    pinch := { strength := 0, distance := 0, history := [] }
    fingerExtension := wOpenHand.fingerExtension
    previousIndexTip := none
    previousOrientation := none
    previousWrist := none }

/-- Contrasting input for the zoom noninterference witness: same finger
extensions as `wBaseInput`, every other field different. -/
def wAltInput : GestureControlInput :=
  { landmarks := wApartFrame
    orientation := { heading := 90, pitch := 10, roll := -10 }
    pinch := { strength := 0.5, distance := 0.2, history := [0.1] }
    fingerExtension := wOpenHand.fingerExtension
    previousIndexTip := some { x := 0.9, y := 0.8, z := 0.7 }
    previousOrientation := some { heading := 10, pitch := 20, roll := 30 }
    previousWrist := some { x := 0.1, y := 0.2, z := 0.3 } }

/-- Contrasting control state for the zoom noninterference witness: same
zoom as `INITIAL_STATE`, different rotations and planet. -/
def wAltState : PlanetControlState :=
  { zoom := 1.0, rotationX := 45, rotationY := -45, rotationZ := 90,
    currentPlanet := .PHOEBE }

/-! ### Helper lemmas -/

/-- The per-frame update on a present hand is `stepActive` on the first hand. -/
theorem usePlanetControlStep_cons (hd : HandData) (lm : Landmarks)
    (ls : List Landmarks) (now : ℚ) (s : HookState) :
    usePlanetControlStep (some hd) (lm :: ls) now s = stepActive hd lm now s := rfl

/-- Zoom of an active frame is `calculateZoom` of the extensions and the
previous zoom. -/
theorem stepActive_zoom (hd : HandData) (lm : Landmarks) (now : ℚ) (s : HookState) :
    (stepActive hd lm now s).control.zoom =
      calculateZoom hd.fingerExtension s.control.zoom := rfl

/-- The planet and pinch refs written by an active frame are those produced
by the planet-switch block. -/
theorem stepActive_pinch (hd : HandData) (lm : Landmarks) (now : ℚ) (s : HookState) :
    (stepActive hd lm now s).control.currentPlanet =
        (pinchResultOf hd.fingerExtension lm now s.refs.firstPinchTime
          s.refs.firstPinchFinger s.refs.previousPinchFinger
          (if s.control.currentPlanet ≠ s.refs.lastPlanet then s.refs.lastPlanet
           else s.control.currentPlanet)).currentPlanet ∧
      (stepActive hd lm now s).refs.firstPinchTime =
        (pinchResultOf hd.fingerExtension lm now s.refs.firstPinchTime
          s.refs.firstPinchFinger s.refs.previousPinchFinger
          (if s.control.currentPlanet ≠ s.refs.lastPlanet then s.refs.lastPlanet
           else s.control.currentPlanet)).firstPinchTime ∧
      (stepActive hd lm now s).refs.firstPinchFinger =
        (pinchResultOf hd.fingerExtension lm now s.refs.firstPinchTime
          s.refs.firstPinchFinger s.refs.previousPinchFinger
          (if s.control.currentPlanet ≠ s.refs.lastPlanet then s.refs.lastPlanet
           else s.control.currentPlanet)).firstPinchFinger ∧
      (stepActive hd lm now s).refs.previousPinchFinger =
        (pinchResultOf hd.fingerExtension lm now s.refs.firstPinchTime
          s.refs.firstPinchFinger s.refs.previousPinchFinger
          (if s.control.currentPlanet ≠ s.refs.lastPlanet then s.refs.lastPlanet
           else s.control.currentPlanet)).previousPinchFinger ∧
      (stepActive hd lm now s).refs.lastPlanet =
        (pinchResultOf hd.fingerExtension lm now s.refs.firstPinchTime
          s.refs.firstPinchFinger s.refs.previousPinchFinger
          (if s.control.currentPlanet ≠ s.refs.lastPlanet then s.refs.lastPlanet
           else s.control.currentPlanet)).currentPlanet :=
  ⟨rfl, rfl, rfl, rfl, rfl⟩

/-- A pinch finger is only reported on a non-fist hand. -/
theorem not_isFist_of_pinchFinger {lm : Landmarks} {fe : FingerExtension}
    {f : PinchFinger} (h : currentPinchFingerOf lm fe = some f) : ¬ IsFist fe := by
  intro hfist
  unfold currentPinchFingerOf at h
  rw [if_neg (fun hc => hc.2.1 hfist)] at h
  exact Option.noConfusion h

/-! ### Claim theorems -/

/-- C7 counterexample: with the valid headings 180° (previous) and 0°
(current), the computed heading delta is exactly −180°, which is not in the
claimed open-below interval (−180°, 180°]; the claim as stated is false. -/
theorem headingDelta_not_always_above_neg180 :
    headingDelta 0 180 = -180 ∧ ¬ (-(180 : ℚ) < headingDelta 0 180) := by
  refine ⟨?_, ?_⟩ <;> norm_num [headingDelta]

/-- C7 (amended): the heading difference is taken along the shortest path
across the 0/360 boundary — previous 359° and current 2° yield +3°, not
−357° — and for headings in [0°, 360°) the computed delta always lies in
the closed interval [−180°, 180°]; both endpoints are attainable (e.g.
180° → 0° gives −180°), so the interval cannot be half-open. -/
theorem headingDelta_shortest_path :
    headingDelta 2 359 = 3 ∧
      ∀ cur prev : ℚ, 0 ≤ cur → cur < 360 → 0 ≤ prev → prev < 360 →
        -180 ≤ headingDelta cur prev ∧ headingDelta cur prev ≤ 180 := by
  refine ⟨by norm_num [headingDelta], ?_⟩
  intro cur prev h1 h2 h3 h4
  simp only [headingDelta]
  split_ifs <;> constructor <;> linarith

/-- C7 witness for the amended theorem at concrete headings 359° → 2°. -/
theorem headingDelta_shortest_path_witness :
    -180 ≤ headingDelta 2 359 ∧ headingDelta 2 359 ≤ 180 :=
  headingDelta_shortest_path.2 2 359 (by norm_num) (by norm_num) (by norm_num)
    (by norm_num)

/-- C8: `getNextPlanet` and `getPreviousPlanet` always return catalog
members; advancing from the last catalog element (PHOEBE) wraps to the
first (SATURN) and retreating from the first wraps to the last; and the
catalog cursor of every reachable hook state is a catalog member. -/
theorem planet_cursor_wraps_and_stays_valid :
    (∀ p, getNextPlanet p ∈ PLANET_ORDER) ∧
      (∀ p, getPreviousPlanet p ∈ PLANET_ORDER) ∧
      getNextPlanet .PHOEBE = .SATURN ∧
      getPreviousPlanet .SATURN = .PHOEBE ∧
      ∀ s : HookState, Reachable s → s.control.currentPlanet ∈ PLANET_ORDER := by
  refine ⟨fun p => by cases p <;> decide, fun p => by cases p <;> decide,
    by decide, by decide, ?_⟩
  intro s _
  have h : ∀ p : PlanetType, p ∈ PLANET_ORDER := fun p => by cases p <;> decide
  exact h _

/-- C8 witness: the reachable-state clause applied to the initial state. -/
theorem planet_cursor_wraps_and_stays_valid_witness :
    initialHookState.control.currentPlanet ∈ PLANET_ORDER :=
  planet_cursor_wraps_and_stays_valid.2.2.2.2 initialHookState Reachable.init

/-- C9 counterexample: on the well-formed degenerate frame with all 21
landmarks at the origin, every pairwise Euclidean distance is exactly 0, so
the constant-zero function *is* `distance3D` on this frame (no square root
needed), and the source computes `0/0 = NaN` for every finger: the
returned index extension is `NaN` (`none`), not a number in [0, 1] — the
claim fails on this frame. -/
theorem calculateFingerExtension_nan_counterexample :
    (calculateFingerExtension (fun _ _ => 0) wZeroFrame).index = none ∧
      ¬ ∃ q : ℚ,
          (calculateFingerExtension (fun _ _ => 0) wZeroFrame).index = some q ∧
            0 ≤ q ∧ q ≤ 1 := by
  have h : (calculateFingerExtension (fun _ _ => 0) wZeroFrame).index = none := by
    norm_num [calculateFingerExtension, getFingerExtension, landmarkToPoint]
  refine ⟨h, ?_⟩
  rintro ⟨q, hq, -, -⟩
  rw [h] at hq
  exact Option.noConfusion hq

/-- C9 (amended): each of the five per-finger values computed by
`calculateFingerExtension`, whenever it is a number at all (not `NaN`),
lies in [0, 1] — for every 21-point landmark frame and every distance
function, in particular the Euclidean `distance3D` from `utils/mathUtils`,
whose `Math.sqrt` has no exact rational image.  `NaN` escapes the clamps
only through the `0/0` division of a degenerate finger whose tip and base
knuckle are both at wrist distance 0. -/
theorem calculateFingerExtension_some_mem_Icc
    (dist3D : Point3D → Point3D → ℚ) (landmarks : Landmarks) :
    (∀ q : ℚ, (calculateFingerExtension dist3D landmarks).thumb = some q →
        0 ≤ q ∧ q ≤ 1) ∧
      (∀ q : ℚ, (calculateFingerExtension dist3D landmarks).index = some q →
        0 ≤ q ∧ q ≤ 1) ∧
      (∀ q : ℚ, (calculateFingerExtension dist3D landmarks).middle = some q →
        0 ≤ q ∧ q ≤ 1) ∧
      (∀ q : ℚ, (calculateFingerExtension dist3D landmarks).ring = some q →
        0 ≤ q ∧ q ≤ 1) ∧
      ∀ q : ℚ, (calculateFingerExtension dist3D landmarks).pinky = some q →
        0 ≤ q ∧ q ≤ 1 := by
  have key : ∀ a b q, getFingerExtension a b = some q → 0 ≤ q ∧ q ≤ 1 := by
    intro a b q h
    simp only [getFingerExtension] at h
    split_ifs at h
    all_goals first
      | exact Option.noConfusion h
      | (obtain rfl := (Option.some.inj h).symm
         norm_num)
      | (obtain rfl := (Option.some.inj h).symm
         exact ⟨le_min (by norm_num)
             (mul_nonneg (le_min zero_le_one (le_max_left 0 _)) (by norm_num)),
           min_le_left 1 _⟩)
  exact ⟨fun q => key _ _ q, fun q => key _ _ q, fun q => key _ _ q,
    fun q => key _ _ q, fun q => key _ _ q⟩

/-- C9 witness for the amended theorem: with all distances 1 the index
extension evaluates to the number 0.72 = 18/25, and the theorem places it
in [0, 1]. -/
theorem calculateFingerExtension_some_mem_Icc_witness :
    (calculateFingerExtension (fun _ _ => 1) wZeroFrame).index = some (18/25) ∧
      (0 : ℚ) ≤ 18/25 ∧ (18/25 : ℚ) ≤ 1 :=
  ⟨by norm_num [calculateFingerExtension, getFingerExtension, landmarkToPoint,
      min_def, max_def],
    (calculateFingerExtension_some_mem_Icc (fun _ _ => 1) wZeroFrame).2.1 (18/25)
      (by norm_num [calculateFingerExtension, getFingerExtension, landmarkToPoint,
        min_def, max_def])⟩

/-- C10: the zoom output of `processGestureControl` depends only on the
finger extensions and the previous zoom — two invocations agreeing on those
agree on zoom, whatever their landmarks, orientation, pinch data, previous
samples and timestamps. -/
theorem processGestureControl_zoom_noninterference
    (input1 input2 : GestureControlInput) (s1 s2 : PlanetControlState)
    (t1 t2 : ℚ) (pt1 pt2 : Option ℚ)
    (hfe : input1.fingerExtension = input2.fingerExtension)
    (hz : s1.zoom = s2.zoom) :
    (processGestureControl input1 s1 t1 pt1).zoom =
      (processGestureControl input2 s2 t2 pt2).zoom := by
  show calculateZoom input1.fingerExtension s1.zoom =
    calculateZoom input2.fingerExtension s2.zoom
  rw [hfe, hz]

/-- Bounds for one zoom update: from a zoom in [ZOOM_MIN, ZOOM_MAX] the
smoothed step stays in [ZOOM_MIN, ZOOM_MAX] — for arbitrary finger
extensions, because `calculateZoom` clamps the target before smoothing. -/
theorem calculateZoom_bounds (fe : FingerExtension) (z : ℚ)
    (h1 : ZOOM_MIN ≤ z) (h2 : z ≤ ZOOM_MAX) :
    ZOOM_MIN ≤ calculateZoom fe z ∧ calculateZoom fe z ≤ ZOOM_MAX := by
  simp only [calculateZoom]
  set t := ZOOM_MIN + (ZOOM_MAX - ZOOM_MIN) * (1 - avgExtension fe) with ht
  have hc1 : ZOOM_MIN ≤ max ZOOM_MIN (min ZOOM_MAX t) := le_max_left _ _
  have hc2 : max ZOOM_MIN (min ZOOM_MAX t) ≤ ZOOM_MAX :=
    max_le (by norm_num [ZOOM_MIN, ZOOM_MAX]) (min_le_left _ _)
  have hsm : ZOOM_SMOOTHING = 1/25 := by norm_num [ZOOM_SMOOTHING]
  rw [hsm]
  constructor <;> linarith

/-- C3: in every frame with a detected hand whose finger extensions lie in
[0, 1], the new zoom is `currentZoom + (target − currentZoom) · α` with
α = `ZOOM_SMOOTHING` = 0.04 and
`target = ZOOM_MIN + (ZOOM_MAX − ZOOM_MIN) · (1 − avgExtension)` over the
four non-thumb fingers; a fully open hand (`avgExtension = 1`) makes the
target the minimum `ZOOM_MIN = 0.5` and a fully closed hand
(`avgExtension = 0`) the maximum `ZOOM_MAX = 2.0`. -/
theorem zoom_update_formula (hd : HandData) (lm : Landmarks) (ls : List Landmarks)
    (now : ℚ) (s : HookState)
    (hi0 : 0 ≤ hd.fingerExtension.index) (hi1 : hd.fingerExtension.index ≤ 1)
    (hm0 : 0 ≤ hd.fingerExtension.middle) (hm1 : hd.fingerExtension.middle ≤ 1)
    (hr0 : 0 ≤ hd.fingerExtension.ring) (hr1 : hd.fingerExtension.ring ≤ 1)
    (hp0 : 0 ≤ hd.fingerExtension.pinky) (hp1 : hd.fingerExtension.pinky ≤ 1) :
    ((usePlanetControlStep (some hd) (lm :: ls) now s).control.zoom =
        s.control.zoom +
          (ZOOM_MIN + (ZOOM_MAX - ZOOM_MIN) * (1 - avgExtension hd.fingerExtension) -
            s.control.zoom) * ZOOM_SMOOTHING) ∧
      ZOOM_MIN = 0.5 ∧ ZOOM_MAX = 2.0 ∧ ZOOM_SMOOTHING = 0.04 ∧
      (avgExtension hd.fingerExtension = 1 →
        ZOOM_MIN + (ZOOM_MAX - ZOOM_MIN) * (1 - avgExtension hd.fingerExtension) =
          ZOOM_MIN) ∧
      (avgExtension hd.fingerExtension = 0 →
        ZOOM_MIN + (ZOOM_MAX - ZOOM_MIN) * (1 - avgExtension hd.fingerExtension) =
          ZOOM_MAX) := by
  have havg0 : 0 ≤ avgExtension hd.fingerExtension := by
    unfold avgExtension; linarith
  have havg1 : avgExtension hd.fingerExtension ≤ 1 := by
    unfold avgExtension; linarith
  have hmin : ZOOM_MIN = 1/2 := by norm_num [ZOOM_MIN]
  have hmax : ZOOM_MAX = 2 := by norm_num [ZOOM_MAX]
  refine ⟨?_, by norm_num [ZOOM_MIN], by norm_num [ZOOM_MAX],
    by norm_num [ZOOM_SMOOTHING], ?_, ?_⟩
  · show calculateZoom hd.fingerExtension s.control.zoom = _
    simp only [calculateZoom]
    have h2 : ZOOM_MIN + (ZOOM_MAX - ZOOM_MIN) * (1 - avgExtension hd.fingerExtension) ≤
        ZOOM_MAX := by rw [hmin, hmax]; linarith
    have h1 : ZOOM_MIN ≤
        ZOOM_MIN + (ZOOM_MAX - ZOOM_MIN) * (1 - avgExtension hd.fingerExtension) := by
      rw [hmin, hmax]; linarith
    rw [min_eq_right h2, max_eq_right h1]
  · intro h; rw [h]; ring
  · intro h; rw [h]; ring

/-- C3 witness: the update formula instantiated on a fully open hand at the
initial state. -/
theorem zoom_update_formula_witness :
    (usePlanetControlStep (some wOpenHand) [wZeroFrame] 0 initialHookState).control.zoom =
      initialHookState.control.zoom +
        (ZOOM_MIN + (ZOOM_MAX - ZOOM_MIN) * (1 - avgExtension wOpenHand.fingerExtension) -
          initialHookState.control.zoom) * ZOOM_SMOOTHING :=
  (zoom_update_formula wOpenHand wZeroFrame [] 0 initialHookState
    (by norm_num [wOpenHand]) (by norm_num [wOpenHand]) (by norm_num [wOpenHand])
    (by norm_num [wOpenHand]) (by norm_num [wOpenHand]) (by norm_num [wOpenHand])
    (by norm_num [wOpenHand]) (by norm_num [wOpenHand])).1

/-- C4: one zoom-mapping step keeps zoom inside [ZOOM_MIN, ZOOM_MAX] = 
[0.5, 2.0] for any average extension in [0, 1]; the session starts at
zoom 1.0, and every reachable hook state has zoom within [0.5, 2.0]. -/
theorem zoom_stays_in_range :
    (∀ (fe : FingerExtension) (z : ℚ), 0 ≤ avgExtension fe → avgExtension fe ≤ 1 →
        ZOOM_MIN ≤ z → z ≤ ZOOM_MAX →
        ZOOM_MIN ≤ calculateZoom fe z ∧ calculateZoom fe z ≤ ZOOM_MAX) ∧
      INITIAL_STATE.zoom = 1.0 ∧
      ∀ s : HookState, Reachable s →
        ZOOM_MIN ≤ s.control.zoom ∧ s.control.zoom ≤ ZOOM_MAX := by
  refine ⟨fun fe z _ _ h1 h2 => calculateZoom_bounds fe z h1 h2, rfl, ?_⟩
  intro s hs
  induction hs with
  | init =>
    constructor <;> norm_num [initialHookState, INITIAL_STATE, ZOOM_MIN, ZOOM_MAX]
  | step handData landmarks now hr ih =>
    cases handData with
    | none => exact ih
    | some hd =>
      cases landmarks with
      | nil => exact ih
      | cons lm ls =>
        rw [usePlanetControlStep_cons, stepActive_zoom]
        exact calculateZoom_bounds hd.fingerExtension _ ih.1 ih.2
  | reset hr ih => exact ih
  | set planet hr ih => exact ih

/-- C4 witness: the invariant at the initial state, zoom 1.0 within range. -/
theorem zoom_stays_in_range_witness :
    ZOOM_MIN ≤ initialHookState.control.zoom ∧
      initialHookState.control.zoom ≤ ZOOM_MAX :=
  zoom_stays_in_range.2.2 initialHookState Reachable.init

/-- Fist branch of the planet-switch block: pending double-pinch state is
cleared, the previous-pinch ref is nulled out, the planet is untouched. -/
theorem pinchResultOf_fist (fe : FingerExtension) (lm : Landmarks) (now fpt : ℚ)
    (fpf ppf : Option PinchFinger) (p : PlanetType) (h : IsFist fe) :
    pinchResultOf fe lm now fpt fpf ppf p =
      { firstPinchTime := if fpt ≠ 0 then 0 else fpt
        firstPinchFinger := if fpt ≠ 0 then none else fpf
        previousPinchFinger := none
        currentPlanet := p
        planetSwitched := false } := by
  simp only [pinchResultOf]
  rw [if_pos h]

/-- First-pinch branch: a pinch-start with no usable pending first pinch
records this pinch as the first one and does not switch. -/
theorem pinchResultOf_firstPinch (fe : FingerExtension) (lm : Landmarks)
    (now fpt : ℚ) (fpf ppf : Option PinchFinger) (p : PlanetType)
    (h1 : currentPinchFingerOf lm fe = some PinchFinger.index)
    (h2 : ppf = none)
    (h3 : fpt = 0 ∨ now - fpt > DOUBLE_PINCH_TIMEOUT) :
    pinchResultOf fe lm now fpt fpf ppf p =
      { firstPinchTime := now
        firstPinchFinger := some PinchFinger.index
        previousPinchFinger := some PinchFinger.index
        currentPlanet := p
        planetSwitched := false } := by
  have hnf : ¬ IsFist fe := not_isFist_of_pinchFinger h1
  have hc : (currentPinchFingerOf lm fe ≠ none ∧ ¬ ppf ≠ none) ∧
      currentPinchFingerOf lm fe = some PinchFinger.index :=
    ⟨⟨by rw [h1]; exact Option.some_ne_none _, by rw [h2]; simp⟩, h1⟩
  simp only [pinchResultOf]
  rw [if_neg hnf, if_pos hc, if_pos h3, h1]

/-- Double-pinch branch: a pinch-start while a first pinch by the index
finger is pending and within the timeout advances the planet and clears the
pending state. -/
theorem pinchResultOf_double (fe : FingerExtension) (lm : Landmarks)
    (now fpt : ℚ) (fpf ppf : Option PinchFinger) (p : PlanetType)
    (h1 : currentPinchFingerOf lm fe = some PinchFinger.index)
    (h2 : ppf = none)
    (h3 : fpt ≠ 0) (h4 : now - fpt ≤ DOUBLE_PINCH_TIMEOUT)
    (h5 : fpf = some PinchFinger.index) :
    pinchResultOf fe lm now fpt fpf ppf p =
      { firstPinchTime := 0
        firstPinchFinger := none
        previousPinchFinger := some PinchFinger.index
        currentPlanet := getNextPlanet p
        planetSwitched := true } := by
  have hnf : ¬ IsFist fe := not_isFist_of_pinchFinger h1
  have hc : (currentPinchFingerOf lm fe ≠ none ∧ ¬ ppf ≠ none) ∧
      currentPinchFingerOf lm fe = some PinchFinger.index :=
    ⟨⟨by rw [h1]; exact Option.some_ne_none _, by rw [h2]; simp⟩, h1⟩
  have hno : ¬ (fpt = 0 ∨ now - fpt > DOUBLE_PINCH_TIMEOUT) := by
    push_neg
    exact ⟨h3, h4⟩
  simp only [pinchResultOf]
  rw [if_neg hnf, if_pos hc, if_neg hno, if_pos ⟨h5, h4⟩, h1]

/-- Release branch: on a frame with no pinch after a pinching frame, the
pending first pinch survives inside the timeout and is cleared outside it;
the planet is untouched either way. -/
theorem pinchResultOf_release (fe : FingerExtension) (lm : Landmarks)
    (now fpt : ℚ) (fpf ppf : Option PinchFinger) (p : PlanetType)
    (h0 : ¬ IsFist fe)
    (h1 : currentPinchFingerOf lm fe = none)
    (h2 : ppf ≠ none) :
    pinchResultOf fe lm now fpt fpf ppf p =
      if now - fpt > DOUBLE_PINCH_TIMEOUT then
        { firstPinchTime := 0
          firstPinchFinger := none
          previousPinchFinger := none
          currentPlanet := p
          planetSwitched := false }
      else
        { firstPinchTime := fpt
          firstPinchFinger := fpf
          previousPinchFinger := none
          currentPlanet := p
          planetSwitched := false } := by
  have hstart : ¬ ((currentPinchFingerOf lm fe ≠ none ∧ ¬ ppf ≠ none) ∧
      currentPinchFingerOf lm fe = some PinchFinger.index) := by
    intro hcon
    exact hcon.1.1 h1
  have hrel : ¬ currentPinchFingerOf lm fe ≠ none ∧ ppf ≠ none :=
    ⟨by rw [h1]; simp, h2⟩
  simp only [pinchResultOf]
  rw [if_neg h0, if_neg hstart, if_pos hrel, h1]

/-- C1: on any frame whose four non-thumb extensions are all below the 0.3
fist threshold, the per-frame update leaves the catalog cursor unchanged
and resets the pending double-pinch state (`firstPinchTimeRef` to the
0 sentinel, `firstPinchFingerRef` and `previousPinchFingerRef` to null),
regardless of the landmarks — in particular of how small the
thumb-to-index pinch distance is.  The two synchronization hypotheses are
invariants of the hook: the component state and `lastPlanetRef` agree, and
a zero `firstPinchTimeRef` (the "no pending pinch" sentinel) always comes
with a null `firstPinchFingerRef`. -/
theorem fist_never_switches_planet (hd : HandData) (lm : Landmarks)
    (ls : List Landmarks) (now : ℚ) (s : HookState)
    (hfist : IsFist hd.fingerExtension)
    (hsync : s.control.currentPlanet = s.refs.lastPlanet)
    (hpend : s.refs.firstPinchTime = 0 → s.refs.firstPinchFinger = none) :
    ((usePlanetControlStep (some hd) (lm :: ls) now s).control.currentPlanet =
        s.control.currentPlanet) ∧
      (usePlanetControlStep (some hd) (lm :: ls) now s).refs.firstPinchTime = 0 ∧
      (usePlanetControlStep (some hd) (lm :: ls) now s).refs.firstPinchFinger = none ∧
      (usePlanetControlStep (some hd) (lm :: ls) now s).refs.previousPinchFinger = none := by
  rw [usePlanetControlStep_cons]
  have hif : (if s.control.currentPlanet ≠ s.refs.lastPlanet then s.refs.lastPlanet
      else s.control.currentPlanet) = s.control.currentPlanet := by
    rw [if_neg]
    simp [hsync]
  obtain ⟨e1, e2, e3, e4, _⟩ := stepActive_pinch hd lm now s
  rw [e1, e2, e3, e4, hif,
    pinchResultOf_fist hd.fingerExtension lm now s.refs.firstPinchTime
      s.refs.firstPinchFinger s.refs.previousPinchFinger s.control.currentPlanet hfist]
  refine ⟨rfl, ?_, ?_, rfl⟩
  · by_cases h : s.refs.firstPinchTime = 0
    · simp [h]
    · simp [h]
  · by_cases h : s.refs.firstPinchTime = 0
    · simp [h, hpend h]
    · simp [h]

/-- C1 witness: a fist with the thumb and index tips touching (pinch
distance 0, `wZeroFrame` puts every landmark at the origin) still leaves
the initial planet unchanged and the pending pinch state reset. -/
theorem fist_never_switches_planet_witness :
    IsFist wFistHand.fingerExtension ∧
      ((usePlanetControlStep (some wFistHand) [wZeroFrame] 5 initialHookState).control.currentPlanet =
          initialHookState.control.currentPlanet) ∧
      (usePlanetControlStep (some wFistHand) [wZeroFrame] 5 initialHookState).refs.firstPinchTime = 0 ∧
      (usePlanetControlStep (some wFistHand) [wZeroFrame] 5 initialHookState).refs.firstPinchFinger = none ∧
      (usePlanetControlStep (some wFistHand) [wZeroFrame] 5 initialHookState).refs.previousPinchFinger = none :=
  ⟨by norm_num [wFistHand], fist_never_switches_planet wFistHand wZeroFrame [] 5
    initialHookState (by norm_num [wFistHand]) rfl (fun _ => rfl)⟩

/-- C2: starting with no pending pinch, an index pinch-start at `t1`, a
release at `t2` and a second index pinch-start at `t3` produce exactly one
next-planet switch when the two pinch-starts are at most 600 ms apart
(`DOUBLE_PINCH_TIMEOUT`): the first two frames leave the planet unchanged
and the third advances it once.  The same two pinch-starts spaced more than
600 ms apart produce zero switches, the second being recorded as a fresh
first pinch (`firstPinchTimeRef = t3`, finger `index`).  `0 < t1` holds for
any real `Date.now()` clock, `0` being the "no pending pinch" sentinel. -/
theorem double_pinch_debounce (hd1 hd2 hd3 : HandData) (L1 L2 L3 : Landmarks)
    (ls1 ls2 ls3 : List Landmarks) (t1 t2 t3 : ℚ) (s : HookState)
    (hp1 : currentPinchFingerOf L1 hd1.fingerExtension = some PinchFinger.index)
    (hp2 : currentPinchFingerOf L2 hd2.fingerExtension = none)
    (hnf2 : ¬ IsFist hd2.fingerExtension)
    (hp3 : currentPinchFingerOf L3 hd3.fingerExtension = some PinchFinger.index)
    (hstart : s.refs.firstPinchTime = 0)
    (hppf : s.refs.previousPinchFinger = none)
    (hsync : s.control.currentPlanet = s.refs.lastPlanet)
    (ht1 : 0 < t1) (ht12 : t1 < t2) (ht23 : t2 < t3) :
    (t3 - t1 ≤ 600 →
      (usePlanetControlStep (some hd1) (L1 :: ls1) t1 s).control.currentPlanet =
          s.control.currentPlanet ∧
        (usePlanetControlStep (some hd2) (L2 :: ls2) t2
            (usePlanetControlStep (some hd1) (L1 :: ls1) t1 s)).control.currentPlanet =
          s.control.currentPlanet ∧
        (usePlanetControlStep (some hd3) (L3 :: ls3) t3
            (usePlanetControlStep (some hd2) (L2 :: ls2) t2
              (usePlanetControlStep (some hd1) (L1 :: ls1) t1 s))).control.currentPlanet =
          getNextPlanet s.control.currentPlanet) ∧
    (t3 - t1 > 600 →
      (usePlanetControlStep (some hd1) (L1 :: ls1) t1 s).control.currentPlanet =
          s.control.currentPlanet ∧
        (usePlanetControlStep (some hd2) (L2 :: ls2) t2
            (usePlanetControlStep (some hd1) (L1 :: ls1) t1 s)).control.currentPlanet =
          s.control.currentPlanet ∧
        (usePlanetControlStep (some hd3) (L3 :: ls3) t3
            (usePlanetControlStep (some hd2) (L2 :: ls2) t2
              (usePlanetControlStep (some hd1) (L1 :: ls1) t1 s))).control.currentPlanet =
          s.control.currentPlanet ∧
        (usePlanetControlStep (some hd3) (L3 :: ls3) t3
            (usePlanetControlStep (some hd2) (L2 :: ls2) t2
              (usePlanetControlStep (some hd1) (L1 :: ls1) t1 s))).refs.firstPinchTime =
          t3 ∧
        (usePlanetControlStep (some hd3) (L3 :: ls3) t3
            (usePlanetControlStep (some hd2) (L2 :: ls2) t2
              (usePlanetControlStep (some hd1) (L1 :: ls1) t1 s))).refs.firstPinchFinger =
          some PinchFinger.index) := by
  have h600 : DOUBLE_PINCH_TIMEOUT = 600 := by norm_num [DOUBLE_PINCH_TIMEOUT]
  -- frame 1: first pinch recorded
  set s1 := usePlanetControlStep (some hd1) (L1 :: ls1) t1 s with hs1
  have hif1 : (if s.control.currentPlanet ≠ s.refs.lastPlanet then s.refs.lastPlanet
      else s.control.currentPlanet) = s.control.currentPlanet := by
    rw [if_neg]; simp [hsync]
  have pr1 := pinchResultOf_firstPinch hd1.fingerExtension L1 t1 s.refs.firstPinchTime
    s.refs.firstPinchFinger s.refs.previousPinchFinger s.control.currentPlanet
    hp1 hppf (Or.inl hstart)
  obtain ⟨e1, e2, e3, e4, e5⟩ := stepActive_pinch hd1 L1 t1 s
  have f1planet : s1.control.currentPlanet = s.control.currentPlanet := by
    rw [hs1, usePlanetControlStep_cons, e1, hif1, pr1]
  have f1fpt : s1.refs.firstPinchTime = t1 := by
    rw [hs1, usePlanetControlStep_cons, e2, hif1, pr1]
  have f1fpf : s1.refs.firstPinchFinger = some PinchFinger.index := by
    rw [hs1, usePlanetControlStep_cons, e3, hif1, pr1]
  have f1ppf : s1.refs.previousPinchFinger = some PinchFinger.index := by
    rw [hs1, usePlanetControlStep_cons, e4, hif1, pr1]
  have f1last : s1.refs.lastPlanet = s.control.currentPlanet := by
    rw [hs1, usePlanetControlStep_cons, e5, hif1, pr1]
  -- frame 2: release
  set s2 := usePlanetControlStep (some hd2) (L2 :: ls2) t2 s1 with hs2
  have hif2 : (if s1.control.currentPlanet ≠ s1.refs.lastPlanet then s1.refs.lastPlanet
      else s1.control.currentPlanet) = s1.control.currentPlanet := by
    rw [if_neg]; simp [f1planet, f1last]
  have pr2 := pinchResultOf_release hd2.fingerExtension L2 t2 t1
    (some PinchFinger.index) s1.refs.previousPinchFinger s1.control.currentPlanet
    hnf2 hp2 (by rw [f1ppf]; exact Option.some_ne_none _)
  rw [h600] at pr2
  obtain ⟨g1, g2, g3, g4, g5⟩ := stepActive_pinch hd2 L2 t2 s1
  -- frame 3 projections
  obtain ⟨k1, k2, k3, k4, k5⟩ := stepActive_pinch hd3 L3 t3 s2
  constructor
  · -- the two pinch-starts at most 600 ms apart: exactly one switch
    intro hle
    have hrel : ¬ t2 - t1 > 600 := by linarith
    rw [if_neg hrel] at pr2
    have f2planet : s2.control.currentPlanet = s.control.currentPlanet := by
      rw [hs2, usePlanetControlStep_cons, g1, hif2, f1fpt, f1fpf, pr2, f1planet]
    have f2fpt : s2.refs.firstPinchTime = t1 := by
      rw [hs2, usePlanetControlStep_cons, g2, hif2, f1fpt, f1fpf, pr2]
    have f2fpf : s2.refs.firstPinchFinger = some PinchFinger.index := by
      rw [hs2, usePlanetControlStep_cons, g3, hif2, f1fpt, f1fpf, pr2]
    have f2ppf : s2.refs.previousPinchFinger = none := by
      rw [hs2, usePlanetControlStep_cons, g4, hif2, f1fpt, f1fpf, pr2]
    have f2last : s2.refs.lastPlanet = s.control.currentPlanet := by
      rw [hs2, usePlanetControlStep_cons, g5, hif2, f1fpt, f1fpf, pr2, f1planet]
    have hif3 : (if s2.control.currentPlanet ≠ s2.refs.lastPlanet then s2.refs.lastPlanet
        else s2.control.currentPlanet) = s2.control.currentPlanet := by
      rw [if_neg]; simp [f2planet, f2last]
    have pr3 := pinchResultOf_double hd3.fingerExtension L3 t3 s2.refs.firstPinchTime
      s2.refs.firstPinchFinger s2.refs.previousPinchFinger s2.control.currentPlanet
      hp3 f2ppf (by rw [f2fpt]; exact ne_of_gt ht1) (by rw [f2fpt, h600]; exact hle) f2fpf
    have f3planet : (usePlanetControlStep (some hd3) (L3 :: ls3) t3 s2).control.currentPlanet =
        getNextPlanet s.control.currentPlanet := by
      rw [usePlanetControlStep_cons, k1, hif3, pr3, f2planet]
    exact ⟨f1planet, f2planet, f3planet⟩
  · -- the two pinch-starts more than 600 ms apart: zero switches
    intro hgt
    by_cases hc : t2 - t1 > 600
    · -- the release itself already cleared the pending pinch
      rw [if_pos hc] at pr2
      have f2planet : s2.control.currentPlanet = s.control.currentPlanet := by
        rw [hs2, usePlanetControlStep_cons, g1, hif2, f1fpt, f1fpf, pr2, f1planet]
      have f2fpt : s2.refs.firstPinchTime = 0 := by
        rw [hs2, usePlanetControlStep_cons, g2, hif2, f1fpt, f1fpf, pr2]
      have f2ppf : s2.refs.previousPinchFinger = none := by
        rw [hs2, usePlanetControlStep_cons, g4, hif2, f1fpt, f1fpf, pr2]
      have f2last : s2.refs.lastPlanet = s.control.currentPlanet := by
        rw [hs2, usePlanetControlStep_cons, g5, hif2, f1fpt, f1fpf, pr2, f1planet]
      have hif3 : (if s2.control.currentPlanet ≠ s2.refs.lastPlanet then s2.refs.lastPlanet
          else s2.control.currentPlanet) = s2.control.currentPlanet := by
        rw [if_neg]; simp [f2planet, f2last]
      have pr3 := pinchResultOf_firstPinch hd3.fingerExtension L3 t3 s2.refs.firstPinchTime
        s2.refs.firstPinchFinger s2.refs.previousPinchFinger s2.control.currentPlanet
        hp3 f2ppf (Or.inl f2fpt)
      refine ⟨f1planet, f2planet, ?_, ?_, ?_⟩
      · rw [usePlanetControlStep_cons, k1, hif3, pr3, f2planet]
      · rw [usePlanetControlStep_cons, k2, hif3, pr3]
      · rw [usePlanetControlStep_cons, k3, hif3, pr3]
    · -- the pending pinch survived the release but is now stale
      rw [if_neg hc] at pr2
      have f2planet : s2.control.currentPlanet = s.control.currentPlanet := by
        rw [hs2, usePlanetControlStep_cons, g1, hif2, f1fpt, f1fpf, pr2, f1planet]
      have f2fpt : s2.refs.firstPinchTime = t1 := by
        rw [hs2, usePlanetControlStep_cons, g2, hif2, f1fpt, f1fpf, pr2]
      have f2ppf : s2.refs.previousPinchFinger = none := by
        rw [hs2, usePlanetControlStep_cons, g4, hif2, f1fpt, f1fpf, pr2]
      have f2last : s2.refs.lastPlanet = s.control.currentPlanet := by
        rw [hs2, usePlanetControlStep_cons, g5, hif2, f1fpt, f1fpf, pr2, f1planet]
      have hif3 : (if s2.control.currentPlanet ≠ s2.refs.lastPlanet then s2.refs.lastPlanet
          else s2.control.currentPlanet) = s2.control.currentPlanet := by
        rw [if_neg]; simp [f2planet, f2last]
      have pr3 := pinchResultOf_firstPinch hd3.fingerExtension L3 t3 s2.refs.firstPinchTime
        s2.refs.firstPinchFinger s2.refs.previousPinchFinger s2.control.currentPlanet
        hp3 f2ppf (Or.inr (by rw [f2fpt, h600]; exact hgt))
      refine ⟨f1planet, f2planet, ?_, ?_, ?_⟩
      · rw [usePlanetControlStep_cons, k1, hif3, pr3, f2planet]
      · rw [usePlanetControlStep_cons, k2, hif3, pr3]
      · rw [usePlanetControlStep_cons, k3, hif3, pr3]

/-- If the frame does not qualify as an index pinch, the planet-switch
block leaves the planet untouched, whatever else the frame does. -/
theorem pinchResultOf_planet_of_no_index_pinch (fe : FingerExtension)
    (lm : Landmarks) (now fpt : ℚ) (fpf ppf : Option PinchFinger) (p : PlanetType)
    (h1 : currentPinchFingerOf lm fe = none) :
    (pinchResultOf fe lm now fpt fpf ppf p).currentPlanet = p := by
  by_cases hf : IsFist fe
  · rw [pinchResultOf_fist fe lm now fpt fpf ppf p hf]
  · have hstart : ¬ ((currentPinchFingerOf lm fe ≠ none ∧ ¬ ppf ≠ none) ∧
        currentPinchFingerOf lm fe = some PinchFinger.index) := fun hcon => hcon.1.1 h1
    simp only [pinchResultOf]
    rw [if_neg hf, if_neg hstart]
    by_cases hrel : ¬ currentPinchFingerOf lm fe ≠ none ∧ ppf ≠ none
    · rw [if_pos hrel]
      by_cases hgt : now - fpt > DOUBLE_PINCH_TIMEOUT
      · rw [if_pos hgt]
      · rw [if_neg hgt]
    · rw [if_neg hrel]


/-- The previous-sample refs written by an active frame are this frame's
samples. -/
theorem stepActive_prev_samples (hd : HandData) (lm : Landmarks) (now : ℚ)
    (s : HookState) :
    (stepActive hd lm now s).refs.previousWrist = some (landmarkToPoint (lm 0)) ∧
      (stepActive hd lm now s).refs.previousTimestamp = some now ∧
      (stepActive hd lm now s).refs.previousIndexTip = some (landmarkToPoint (lm 8)) ∧
      (stepActive hd lm now s).refs.previousOrientation = some hd.orientation :=
  ⟨rfl, rfl, rfl, rfl⟩

/-- After any active frame, the component state and `lastPlanetRef` agree
(both are written from the same `currentPlanet` value). -/
theorem stepActive_sync (hd : HandData) (lm : Landmarks) (now : ℚ) (s : HookState) :
    (stepActive hd lm now s).control.currentPlanet =
      (stepActive hd lm now s).refs.lastPlanet := rfl

/-- Thumb tip of the pinching witness frame. -/
theorem wPinchFrame_thumb : wPinchFrame 4 = { x := 0.5, y := 0.5, z := 0 } := rfl

/-- Index tip of the pinching witness frame. -/
theorem wPinchFrame_index : wPinchFrame 8 = { x := 0.5, y := 0.5, z := 0 } := rfl

/-- Thumb tip of the apart witness frame. -/
theorem wApartFrame_thumb : wApartFrame 4 = { x := 1, y := 0, z := 0 } := rfl

/-- Index tip of the apart witness frame. -/
theorem wApartFrame_index : wApartFrame 8 = { x := 0, y := 0, z := 0 } := rfl

/-- Thumb tip of the swiping witness frame. -/
theorem wSwipeFrame_thumb (wx : ℚ) :
    wSwipeFrame wx 4 = { x := wx + 0.5, y := 0.5, z := 0 } := rfl

/-- Index tip of the swiping witness frame. -/
theorem wSwipeFrame_index (wx : ℚ) :
    wSwipeFrame wx 8 = { x := wx, y := 0.5, z := 0 } := rfl

/-- Wrist of the swiping witness frame. -/
theorem wSwipeFrame_wrist (wx : ℚ) :
    wSwipeFrame wx 0 = { x := wx, y := 0.5, z := 0 } := rfl

/-- The pinching witness pose is classified as an index pinch. -/
theorem wPinchFrame_pose :
    currentPinchFingerOf wPinchFrame wPinchHand.fingerExtension =
      some PinchFinger.index := by
  unfold currentPinchFingerOf
  rw [if_pos]
  refine ⟨?_, ?_, ?_, ?_, ?_⟩ <;>
    norm_num [IsIndexPinched, thumbIndexDistanceSq, wPinchFrame_thumb,
      wPinchFrame_index, landmarkToPoint, PINCH_DISTANCE_THRESHOLD, wPinchHand,
      IsFist, AreOtherFingersExtended, OTHER_FINGERS_EXTENDED_THRESHOLD]

/-- The pinching witness hand is not a fist. -/
theorem wPinchHand_not_fist : ¬ IsFist wPinchHand.fingerExtension := by
  norm_num [IsFist, wPinchHand]

/-- The open witness hand is not a fist. -/
theorem wOpenHand_not_fist : ¬ IsFist wOpenHand.fingerExtension := by
  norm_num [IsFist, wOpenHand]

/-- An open hand over the apart witness frame is not pinching. -/
theorem wApartFrame_pose :
    currentPinchFingerOf wApartFrame wOpenHand.fingerExtension = none := by
  unfold currentPinchFingerOf
  rw [if_neg]
  intro h
  have h1 : thumbIndexDistanceSq wApartFrame < PINCH_DISTANCE_THRESHOLD ^ 2 := h.1
  norm_num [thumbIndexDistanceSq, wApartFrame_thumb, wApartFrame_index,
    landmarkToPoint, PINCH_DISTANCE_THRESHOLD] at h1

/-- An open hand over any swiping witness frame is not pinching (the thumb
is held 0.5 away from the index tip). -/
theorem wSwipeFrame_pose (wx : ℚ) :
    currentPinchFingerOf (wSwipeFrame wx) wOpenHand.fingerExtension = none := by
  have hd : thumbIndexDistanceSq (wSwipeFrame wx) = 1/4 := by
    simp only [thumbIndexDistanceSq, wSwipeFrame_thumb, wSwipeFrame_index,
      landmarkToPoint]
    ring
  unfold currentPinchFingerOf
  rw [if_neg]
  intro h
  have h1 : thumbIndexDistanceSq (wSwipeFrame wx) < PINCH_DISTANCE_THRESHOLD ^ 2 := h.1
  rw [hd] at h1
  norm_num [PINCH_DISTANCE_THRESHOLD] at h1

/-- With no previous samples, every rotation contribution of
`processGestureControl` is zero and the swipe is `none`. -/
theorem processGestureControl_deltas_zero (input : GestureControlInput)
    (cs : PlanetControlState) (ts : ℚ) (pts : Option ℚ)
    (h1 : input.previousIndexTip = none) (h2 : input.previousWrist = none)
    (h3 : input.previousOrientation = none) :
    (processGestureControl input cs ts pts).rotationX = 0 ∧
      (processGestureControl input cs ts pts).rotationY = 0 ∧
      (processGestureControl input cs ts pts).rotationZ = 0 ∧
      (processGestureControl input cs ts pts).swipe.direction = SwipeDir.none := by
  have ex : (processGestureControl input cs ts pts).rotationX =
      (calculateFingerRotation (landmarkToPoint (input.landmarks 8))
          input.previousIndexTip).rotationX +
        (calculateHandMovementRotation (landmarkToPoint (input.landmarks 0))
          input.previousWrist (some input.fingerExtension)).rotationX +
        (calculateHandRotation input.orientation input.previousOrientation
          (some input.fingerExtension)).rotationX := rfl
  have ey : (processGestureControl input cs ts pts).rotationY =
      (calculateFingerRotation (landmarkToPoint (input.landmarks 8))
          input.previousIndexTip).rotationY +
        (calculateHandMovementRotation (landmarkToPoint (input.landmarks 0))
          input.previousWrist (some input.fingerExtension)).rotationY +
        (calculateHandRotation input.orientation input.previousOrientation
          (some input.fingerExtension)).rotationY := rfl
  have ez : (processGestureControl input cs ts pts).rotationZ =
      (calculateHandRotation input.orientation input.previousOrientation
        (some input.fingerExtension)).rotationZ := rfl
  have es : (processGestureControl input cs ts pts).swipe =
      detectSwipe (landmarkToPoint (input.landmarks 0)) input.previousWrist ts pts := rfl
  rw [ex, ey, ez, es, h1, h2, h3]
  norm_num [calculateFingerRotation, calculateHandMovementRotation,
    calculateHandRotation, detectSwipe]

/-- C6 (amended): while the hand is absent the per-frame update leaves the
whole control state (rotation, zoom, planet) unchanged and clears the four
previous-sample refs — but not the pending double-pinch refs
(`firstPinchTimeRef`, `previousPinchFingerRef`), which survive the gap; and
on a frame whose previous-sample refs are cleared, all three rotation
deltas are zero and the swipe is `none`, however far the wrist and index
tip moved during the absence.  (Because the pending double-pinch state
survives, a double-pinch switch can still fire on the reappearance frame —
see the counterexample.) -/
theorem hand_absence_preserves_state :
    (∀ (landmarks : List Landmarks) (now : ℚ) (s : HookState),
        (usePlanetControlStep none landmarks now s).control = s.control ∧
        (usePlanetControlStep none landmarks now s).refs.previousIndexTip = none ∧
        (usePlanetControlStep none landmarks now s).refs.previousOrientation = none ∧
        (usePlanetControlStep none landmarks now s).refs.previousWrist = none ∧
        (usePlanetControlStep none landmarks now s).refs.previousTimestamp = none ∧
        (usePlanetControlStep none landmarks now s).refs.firstPinchTime =
          s.refs.firstPinchTime ∧
        (usePlanetControlStep none landmarks now s).refs.previousPinchFinger =
          s.refs.previousPinchFinger) ∧
    (∀ (hd : HandData) (lm : Landmarks) (ls : List Landmarks) (now : ℚ) (s : HookState),
        s.refs.previousIndexTip = none → s.refs.previousWrist = none →
        s.refs.previousOrientation = none →
        (usePlanetControlStep (some hd) (lm :: ls) now s).control.rotationX =
          s.control.rotationX ∧
        (usePlanetControlStep (some hd) (lm :: ls) now s).control.rotationY =
          s.control.rotationY ∧
        (usePlanetControlStep (some hd) (lm :: ls) now s).control.rotationZ =
          s.control.rotationZ ∧
        (processGestureControl
          { landmarks := lm, orientation := hd.orientation, pinch := hd.pinch,
            fingerExtension := hd.fingerExtension,
            previousIndexTip := s.refs.previousIndexTip,
            previousOrientation := s.refs.previousOrientation,
            previousWrist := s.refs.previousWrist } s.control now
          s.refs.previousTimestamp).swipe.direction = SwipeDir.none) := by
  constructor
  · intro landmarks now s
    exact ⟨rfl, rfl, rfl, rfl, rfl, rfl, rfl⟩
  · intro hd lm ls now s h1 h2 h3
    obtain ⟨z1, z2, z3, z4⟩ := processGestureControl_deltas_zero
      { landmarks := lm, orientation := hd.orientation, pinch := hd.pinch,
        fingerExtension := hd.fingerExtension,
        previousIndexTip := s.refs.previousIndexTip,
        previousOrientation := s.refs.previousOrientation,
        previousWrist := s.refs.previousWrist } s.control now
      s.refs.previousTimestamp h1 h2 h3
    refine ⟨?_, ?_, ?_, z4⟩
    · show s.control.rotationX + _ = s.control.rotationX
      rw [z1, add_zero]
    · show s.control.rotationY + _ = s.control.rotationY
      rw [z2, add_zero]
    · show s.control.rotationZ + _ = s.control.rotationZ
      rw [z3, add_zero]

/-- C6 witness: the absence clause at the initial state with no landmark
list, and the zero-delta clause on the first frame after mount (all
previous-sample refs still `none`). -/
theorem hand_absence_preserves_state_witness :
    (usePlanetControlStep none [] 0 initialHookState).control =
        initialHookState.control ∧
      (usePlanetControlStep (some wOpenHand) [wZeroFrame] 0
          initialHookState).control.rotationX =
        initialHookState.control.rotationX :=
  ⟨(hand_absence_preserves_state.1 [] 0 initialHookState).1,
    (hand_absence_preserves_state.2 wOpenHand wZeroFrame [] 0 initialHookState
      rfl rfl rfl).1⟩

/-- C6 counterexample: a first index pinch at 1000 ms, a release at
1100 ms, a hand-absent frame at 1200 ms, and a reappearance already
pinching at 1300 ms.  The state is indeed unchanged across the gap, but a
planet switch fires on the reappearance frame (SATURN → HYPERION): the
pending double-pinch refs are not cleared on absence, so the claim that no
switch can fire on the reappearance frame is false. -/
theorem reappearance_switch_counterexample :
    (usePlanetControlStep none [] 1200
        (usePlanetControlStep (some wOpenHand) [wApartFrame] 1100
          (usePlanetControlStep (some wPinchHand) [wPinchFrame] 1000
            initialHookState))).control =
      (usePlanetControlStep (some wOpenHand) [wApartFrame] 1100
        (usePlanetControlStep (some wPinchHand) [wPinchFrame] 1000
          initialHookState)).control ∧
    (usePlanetControlStep none [] 1200
        (usePlanetControlStep (some wOpenHand) [wApartFrame] 1100
          (usePlanetControlStep (some wPinchHand) [wPinchFrame] 1000
            initialHookState))).control.currentPlanet = PlanetType.SATURN ∧
    (usePlanetControlStep (some wPinchHand) [wPinchFrame] 1300
        (usePlanetControlStep none [] 1200
          (usePlanetControlStep (some wOpenHand) [wApartFrame] 1100
            (usePlanetControlStep (some wPinchHand) [wPinchFrame] 1000
              initialHookState)))).control.currentPlanet = PlanetType.HYPERION := by
  set s1 := usePlanetControlStep (some wPinchHand) [wPinchFrame] 1000 initialHookState
    with hs1
  set s2 := usePlanetControlStep (some wOpenHand) [wApartFrame] 1100 s1 with hs2
  set s3 := usePlanetControlStep none [] 1200 s2 with hs3
  set s4 := usePlanetControlStep (some wPinchHand) [wPinchFrame] 1300 s3 with hs4
  -- frame 1: the first pinch is recorded
  obtain ⟨e1, e2, e3, e4, e5⟩ := stepActive_pinch wPinchHand wPinchFrame 1000
    initialHookState
  have pr1 := pinchResultOf_firstPinch wPinchHand.fingerExtension wPinchFrame 1000
    initialHookState.refs.firstPinchTime initialHookState.refs.firstPinchFinger
    initialHookState.refs.previousPinchFinger initialHookState.control.currentPlanet
    wPinchFrame_pose rfl (Or.inl rfl)
  have f1p : s1.control.currentPlanet = PlanetType.SATURN := by
    rw [hs1, usePlanetControlStep_cons, e1, if_neg (by decide), pr1]; rfl
  have f1fpt : s1.refs.firstPinchTime = 1000 := by
    rw [hs1, usePlanetControlStep_cons, e2, if_neg (by decide), pr1]
  have f1fpf : s1.refs.firstPinchFinger = some PinchFinger.index := by
    rw [hs1, usePlanetControlStep_cons, e3, if_neg (by decide), pr1]
  have f1ppf : s1.refs.previousPinchFinger = some PinchFinger.index := by
    rw [hs1, usePlanetControlStep_cons, e4, if_neg (by decide), pr1]
  have f1last : s1.refs.lastPlanet = PlanetType.SATURN := by
    rw [hs1, usePlanetControlStep_cons, e5, if_neg (by decide), pr1]; rfl
  -- frame 2: release within the window keeps the pending pinch
  obtain ⟨g1, g2, g3, g4, g5⟩ := stepActive_pinch wOpenHand wApartFrame 1100 s1
  have hif2 : (if s1.control.currentPlanet ≠ s1.refs.lastPlanet then s1.refs.lastPlanet
      else s1.control.currentPlanet) = s1.control.currentPlanet := by
    rw [if_neg]; simp [f1p, f1last]
  have pr2 := pinchResultOf_release wOpenHand.fingerExtension wApartFrame 1100
    s1.refs.firstPinchTime s1.refs.firstPinchFinger s1.refs.previousPinchFinger
    s1.control.currentPlanet wOpenHand_not_fist wApartFrame_pose
    (by rw [f1ppf]; exact Option.some_ne_none _)
  rw [f1fpt, if_neg (by norm_num [DOUBLE_PINCH_TIMEOUT] :
    ¬ ((1100 : ℚ) - 1000 > DOUBLE_PINCH_TIMEOUT))] at pr2
  have f2p : s2.control.currentPlanet = PlanetType.SATURN := by
    rw [hs2, usePlanetControlStep_cons, g1, hif2, f1fpt, pr2, f1p]
  have f2fpt : s2.refs.firstPinchTime = 1000 := by
    rw [hs2, usePlanetControlStep_cons, g2, hif2, f1fpt, pr2]
  have f2fpf : s2.refs.firstPinchFinger = some PinchFinger.index := by
    rw [hs2, usePlanetControlStep_cons, g3, hif2, f1fpt, pr2, f1fpf]
  have f2ppf : s2.refs.previousPinchFinger = none := by
    rw [hs2, usePlanetControlStep_cons, g4, hif2, f1fpt, pr2]
  have f2last : s2.refs.lastPlanet = PlanetType.SATURN := by
    rw [hs2, usePlanetControlStep_cons, g5, hif2, f1fpt, pr2, f1p]
  -- frame 3: the hand is absent; only the previous samples are cleared
  have f3c : s3.control = s2.control := by rw [hs3]; exact rfl
  have f3p : s3.control.currentPlanet = PlanetType.SATURN := by rw [hs3]; exact f2p
  have f3fpt : s3.refs.firstPinchTime = 1000 := by rw [hs3]; exact f2fpt
  have f3fpf : s3.refs.firstPinchFinger = some PinchFinger.index := by
    rw [hs3]; exact f2fpf
  have f3ppf : s3.refs.previousPinchFinger = none := by rw [hs3]; exact f2ppf
  have f3last : s3.refs.lastPlanet = PlanetType.SATURN := by rw [hs3]; exact f2last
  -- frame 4: the reappearing pinch completes the double pinch and switches
  obtain ⟨k1, _, _, _, _⟩ := stepActive_pinch wPinchHand wPinchFrame 1300 s3
  have hif4 : (if s3.control.currentPlanet ≠ s3.refs.lastPlanet then s3.refs.lastPlanet
      else s3.control.currentPlanet) = s3.control.currentPlanet := by
    rw [if_neg]; simp [f3p, f3last]
  have pr4 := pinchResultOf_double wPinchHand.fingerExtension wPinchFrame 1300
    s3.refs.firstPinchTime s3.refs.firstPinchFinger s3.refs.previousPinchFinger
    s3.control.currentPlanet wPinchFrame_pose f3ppf
    (by rw [f3fpt]; norm_num)
    (by rw [f3fpt]; norm_num [DOUBLE_PINCH_TIMEOUT]) f3fpf
  have f4p : s4.control.currentPlanet = PlanetType.HYPERION := by
    rw [hs4, usePlanetControlStep_cons, k1, hif4, pr4, f3p]
    decide
  exact ⟨f3c, f3p, f4p⟩

/-- C2 witness: two concrete index pinch-starts 600 ms apart (1000 ms and
1600 ms, release at 1100 ms) advance the initial planet exactly once. -/
theorem double_pinch_debounce_witness :
    (usePlanetControlStep (some wPinchHand) [wPinchFrame] 1600
        (usePlanetControlStep (some wOpenHand) [wApartFrame] 1100
          (usePlanetControlStep (some wPinchHand) [wPinchFrame] 1000
            initialHookState))).control.currentPlanet =
      getNextPlanet initialHookState.control.currentPlanet :=
  ((double_pinch_debounce wPinchHand wOpenHand wPinchHand wPinchFrame wApartFrame
      wPinchFrame [] [] [] 1000 1100 1600 initialHookState
      wPinchFrame_pose wApartFrame_pose wOpenHand_not_fist wPinchFrame_pose
      rfl rfl rfl (by norm_num) (by norm_num) (by norm_num)).1 (by norm_num)).2.2

/-- C5 counterexample: with the hand sliding right 0.05 per 100 ms frame,
`detectSwipe` reports a qualifying `right` swipe at t = 1000 ms and again
100 ms later at t = 1100 ms (computed exactly on the refs the update
stored, all timestamps nonzero so none is falsy), yet the
catalog cursor never moves: the run from the initial state ends on the
initial planet, i.e. the two qualifying swipes produce zero planet-switch
events, not one — the swipe planet-switch block (ЖЕСТ 4, with its 150 ms
`SWIPE_COOLDOWN`) is commented out in `usePlanetControl.ts`. -/
theorem swipe_claim_counterexample :
    (detectSwipe (landmarkToPoint (wSwipeFrame (7/20) 0))
        (usePlanetControlStep (some wOpenHand) [wSwipeFrame (3/10)] 900
          initialHookState).refs.previousWrist 1000
        (usePlanetControlStep (some wOpenHand) [wSwipeFrame (3/10)] 900
          initialHookState).refs.previousTimestamp).direction = SwipeDir.right ∧
      (detectSwipe (landmarkToPoint (wSwipeFrame (2/5) 0))
        (usePlanetControlStep (some wOpenHand) [wSwipeFrame (7/20)] 1000
          (usePlanetControlStep (some wOpenHand) [wSwipeFrame (3/10)] 900
            initialHookState)).refs.previousWrist 1100
        (usePlanetControlStep (some wOpenHand) [wSwipeFrame (7/20)] 1000
          (usePlanetControlStep (some wOpenHand) [wSwipeFrame (3/10)] 900
            initialHookState)).refs.previousTimestamp).direction = SwipeDir.right ∧
      (usePlanetControlStep (some wOpenHand) [wSwipeFrame (2/5)] 1100
        (usePlanetControlStep (some wOpenHand) [wSwipeFrame (7/20)] 1000
          (usePlanetControlStep (some wOpenHand) [wSwipeFrame (3/10)] 900
            initialHookState))).control.currentPlanet =
        initialHookState.control.currentPlanet := by
  set s1 := usePlanetControlStep (some wOpenHand) [wSwipeFrame (3/10)] 900
    initialHookState with hs1
  set s2 := usePlanetControlStep (some wOpenHand) [wSwipeFrame (7/20)] 1000 s1 with hs2
  set s3 := usePlanetControlStep (some wOpenHand) [wSwipeFrame (2/5)] 1100 s2 with hs3
  have hw1 : s1.refs.previousWrist = some (landmarkToPoint (wSwipeFrame (3/10) 0)) := by
    rw [hs1, usePlanetControlStep_cons]
    exact (stepActive_prev_samples wOpenHand (wSwipeFrame (3/10)) 900
      initialHookState).1
  have ht1 : s1.refs.previousTimestamp = some 900 := by
    rw [hs1, usePlanetControlStep_cons]
    exact (stepActive_prev_samples wOpenHand (wSwipeFrame (3/10)) 900
      initialHookState).2.1
  have hw2 : s2.refs.previousWrist = some (landmarkToPoint (wSwipeFrame (7/20) 0)) := by
    rw [hs2, usePlanetControlStep_cons]
    exact (stepActive_prev_samples wOpenHand (wSwipeFrame (7/20)) 1000 s1).1
  have ht2 : s2.refs.previousTimestamp = some 1000 := by
    rw [hs2, usePlanetControlStep_cons]
    exact (stepActive_prev_samples wOpenHand (wSwipeFrame (7/20)) 1000 s1).2.1
  -- the planet never moves on non-pinch frames
  have hsync1 : s1.control.currentPlanet = s1.refs.lastPlanet := by
    rw [hs1, usePlanetControlStep_cons]
    exact stepActive_sync wOpenHand (wSwipeFrame (3/10)) 900 initialHookState
  have hsync2 : s2.control.currentPlanet = s2.refs.lastPlanet := by
    rw [hs2, usePlanetControlStep_cons]
    exact stepActive_sync wOpenHand (wSwipeFrame (7/20)) 1000 s1
  have hp1 : s1.control.currentPlanet = initialHookState.control.currentPlanet := by
    rw [hs1, usePlanetControlStep_cons]
    obtain ⟨e1, _, _, _, _⟩ := stepActive_pinch wOpenHand (wSwipeFrame (3/10)) 900
      initialHookState
    rw [e1, if_neg (by decide)]
    exact pinchResultOf_planet_of_no_index_pinch _ _ _ _ _ _ _ (wSwipeFrame_pose (3/10))
  have hp2 : s2.control.currentPlanet = s1.control.currentPlanet := by
    rw [hs2, usePlanetControlStep_cons]
    obtain ⟨e1, _, _, _, _⟩ := stepActive_pinch wOpenHand (wSwipeFrame (7/20)) 1000 s1
    rw [e1, if_neg (by simp [hsync1]),
      pinchResultOf_planet_of_no_index_pinch _ _ _ _ _ _ _ (wSwipeFrame_pose (7/20))]
  have hp3 : s3.control.currentPlanet = s2.control.currentPlanet := by
    rw [hs3, usePlanetControlStep_cons]
    obtain ⟨e1, _, _, _, _⟩ := stepActive_pinch wOpenHand (wSwipeFrame (2/5)) 1100 s2
    rw [e1, if_neg (by simp [hsync2]),
      pinchResultOf_planet_of_no_index_pinch _ _ _ _ _ _ _ (wSwipeFrame_pose (2/5))]
  refine ⟨?_, ?_, ?_⟩
  · rw [hw1, ht1]
    norm_num [detectSwipe, wSwipeFrame_wrist, landmarkToPoint, SWIPE_THRESHOLD,
      show |((1:ℚ)/20)| = 1/20 from abs_of_nonneg (by norm_num)]
  · rw [hw2, ht2]
    norm_num [detectSwipe, wSwipeFrame_wrist, landmarkToPoint, SWIPE_THRESHOLD,
      show |((1:ℚ)/20)| = 1/20 from abs_of_nonneg (by norm_num)]
  · rw [hp3, hp2, hp1]

/-- C5 (amended): the swipe recognizer block of the per-frame update is
disabled (commented out), so a detected swipe never changes the catalog
cursor: any frame in which the hand is not in the index-pinch pose leaves
`currentPlanet` unchanged, even when `detectSwipe` reports a qualifying
swipe for that frame.  Hence two qualifying swipes at t = 0 and t = 100 ms
produce zero planet-switch events rather than exactly one. -/
theorem swipe_never_switches_planet (hd : HandData) (lm : Landmarks)
    (ls : List Landmarks) (now : ℚ) (s : HookState)
    (hsync : s.control.currentPlanet = s.refs.lastPlanet)
    (hpose : currentPinchFingerOf lm hd.fingerExtension = none)
    (hswipe : (detectSwipe (landmarkToPoint (lm 0)) s.refs.previousWrist now
        s.refs.previousTimestamp).direction ≠ SwipeDir.none) :
    (usePlanetControlStep (some hd) (lm :: ls) now s).control.currentPlanet =
      s.control.currentPlanet := by
  rw [usePlanetControlStep_cons]
  obtain ⟨e1, _, _, _, _⟩ := stepActive_pinch hd lm now s
  rw [e1, if_neg (by simp [hsync]),
    pinchResultOf_planet_of_no_index_pinch hd.fingerExtension lm now
      s.refs.firstPinchTime s.refs.firstPinchFinger s.refs.previousPinchFinger
      s.control.currentPlanet hpose]

/-- C5 witness for the amended theorem: the qualifying right swipe at
t = 1000 ms of the counterexample trace leaves the planet unchanged. -/
theorem swipe_never_switches_planet_witness :
    (usePlanetControlStep (some wOpenHand) [wSwipeFrame (7/20)] 1000
        (usePlanetControlStep (some wOpenHand) [wSwipeFrame (3/10)] 900
          initialHookState)).control.currentPlanet =
      (usePlanetControlStep (some wOpenHand) [wSwipeFrame (3/10)] 900
        initialHookState).control.currentPlanet := by
  have h1 : (usePlanetControlStep (some wOpenHand) [wSwipeFrame (3/10)] 900
        initialHookState).refs.previousWrist =
      some (landmarkToPoint (wSwipeFrame (3/10) 0)) :=
    (stepActive_prev_samples wOpenHand (wSwipeFrame (3/10)) 900 initialHookState).1
  have h2 : (usePlanetControlStep (some wOpenHand) [wSwipeFrame (3/10)] 900
        initialHookState).refs.previousTimestamp = some 900 :=
    (stepActive_prev_samples wOpenHand (wSwipeFrame (3/10)) 900 initialHookState).2.1
  apply swipe_never_switches_planet wOpenHand (wSwipeFrame (7/20)) [] 1000
    (usePlanetControlStep (some wOpenHand) [wSwipeFrame (3/10)] 900 initialHookState)
    (stepActive_sync wOpenHand (wSwipeFrame (3/10)) 900 initialHookState)
    (wSwipeFrame_pose (7/20))
  rw [h1, h2]
  norm_num [detectSwipe, wSwipeFrame_wrist, landmarkToPoint, SWIPE_THRESHOLD,
    show |((1:ℚ)/20)| = 1/20 from abs_of_nonneg (by norm_num)]
  decide

/-- C10 witness: two invocations sharing only the finger extensions and the
current zoom — different landmarks, orientation, pinch data, previous
samples, rotations, planet and timestamps — return the same zoom. -/
theorem processGestureControl_zoom_noninterference_witness :
    (processGestureControl wBaseInput INITIAL_STATE 0 none).zoom =
      (processGestureControl wAltInput wAltState 12345 (some 11111)).zoom :=
  processGestureControl_zoom_noninterference wBaseInput wAltInput INITIAL_STATE
    wAltState 0 12345 none (some 11111) rfl rfl
